import Mathlib

/-!
Shallow embedding of the food-logging backend (`src/backend/routes/auth.js`
and the `authenticateToken` middleware in `src/backend/middleware/authMiddleware.js`),
together with models of the two external libraries the auth layer calls into
(`jsonwebtoken` and `bcryptjs`), which are not part of this repository's source.

JavaScript request fields are modelled as `Option` values (a missing field is
`none`), and JavaScript truthiness of strings and numbers is made explicit
(`""` and `0` are falsy). Route handlers that run database queries inside a
`try`/`catch` are embedded in the `Except String` monad: a database failure is
an `Except.error msg`, and the handler's `catch` block is the final `match`
that turns it into a 500 response carrying `msg`.
-/

namespace FitnessPal

/-- Claims carried by a JWT; the code only ever signs an object with a
single `userId` field (`jwt.sign(obj, JWT_SECRET, expiresIn 1h)` at
`auth.js:56`). -/
structure Claims where
  userId : Nat
deriving DecidableEq, Repr

/-- Modelled from the spec: the wire token produced by the external
`jsonwebtoken` library. The library is not part of this repository's source;
per the spec (section 4.2) a token is a signed, self-contained assertion of
userId, issued-at and expiry. The signature is idealised: `sig` records the
secret the token was signed with, and signature verification against a
candidate secret succeeds exactly when the two secrets coincide (an ideal
unforgeable MAC). -/
structure Token where
  claims : Claims
  iat : Nat
  exp : Nat
  sig : String
deriving DecidableEq, Repr

/-- Verification failures reported by the token verifier, per spec
section 4.2: SignatureInvalid, Expired, Malformed. -/
inductive VerificationError where
  | SignatureInvalid
  | Expired
  | Malformed
deriving DecidableEq, Repr

/-- Modelled from the spec: `jwt.sign(claims, secret, expiresIn 1h)` of the
external `jsonwebtoken` library, as called at `auth.js:56`. The spec
(section 4.2) states the expiry timestamp is issuance-time + 1 hour; times
are in seconds, so the expiry is `now + 3600`. -/
def jwtSign (c : Claims) (secret : String) (now : Nat) : Token :=
  { claims := c, iat := now, exp := now + 3600, sig := secret }

/-- Modelled from the spec: `jwt.verify(token, secret)` of the external
`jsonwebtoken` library, as called at `authMiddleware.js` inside
`authenticateToken`. Per spec sections 3 and 4.2 it checks exactly
(a) signature integrity against the secret and (b) that the current time is
before the expiry; no other condition (in particular no user lookup) is
consulted. A bad signature reports SignatureInvalid; a stale token reports
Expired. -/
def jwtVerify (t : Token) (secret : String) (now : Nat) :
    Except VerificationError Claims :=
  if t.sig ≠ secret then .error .SignatureInvalid
  else if t.exp ≤ now then .error .Expired
  else .ok t.claims

/-- Outcome of the `authenticateToken` middleware for one request.
`fault` records a thrown JavaScript `TypeError`: the middleware attempted to
call a method that does not exist on the response object, so no response was
written by the middleware itself. `rejected` is an HTTP error response the
middleware wrote; `authorized` means the verified claims were attached to
`req.user` and `next()` was invoked. -/
inductive GuardOutcome where
  | fault (msg : String)
  | rejected (status : Nat) (error : String)
  | authorized (claims : Claims)
deriving DecidableEq, Repr

/-- Accumulator-style worker for `splitSpace`: walks the character list,
cutting a chunk at every space character, exactly as JavaScript
`String.prototype.split(' ')` does (adjacent spaces yield empty chunks, and
the empty string yields the single chunk `""`). -/
def splitSpaceAux : List Char → List Char → List String
  | [], acc => [String.mk acc.reverse]
  | c :: cs, acc =>
    if c = ' ' then String.mk acc.reverse :: splitSpaceAux cs []
    else splitSpaceAux cs (c :: acc)

/-- JavaScript `header.split(' ')`: split on every single space
character. -/
def splitSpace (s : String) : List String :=
  splitSpaceAux s.data []

/-- Token extraction of `authMiddleware.js:216-217`:
`const token = authHeader && authHeader.split(' ')[1]`.
The header is split on single spaces and the element at index 1 is taken;
the result is falsy (treated as "no token") when the header is absent, when
there is no index-1 chunk, or when that chunk is the empty string. Note the
code never inspects the first chunk: no `Bearer` prefix check occurs. -/
def extractToken (authHeader : Option String) : Option String :=
  match authHeader with
  | none => none
  | some h =>
    match (splitSpace h)[1]? with
    | none => none
    | some t => if t = "" then none else some t

/-- Continuation of the guard after `jwt.verify` returns
(`authMiddleware.js:223-229`): a verification error is caught and answered
with `res.status(400).json(error Invalid token)`; success stores the decoded
claims in `req.user` and calls `next()`. -/
def handleVerify (r : Except VerificationError Claims) : GuardOutcome :=
  match r with
  | .error _ => .rejected 400 "Invalid token"
  | .ok c => .authorized c

/-- The `authenticateToken` middleware (`authMiddleware.js:215-230`),
parameterised by the ambient verifier (`jwt.verify` applied to the
process-wide secret and clock). When no token is extracted, line 220
executes `return res.status(401).jso(errorObject)` — `jso` is not a method
of the Express response object, so this line throws
`TypeError: res.status(...).jso is not a function` instead of sending the
intended 401 JSON body; we model that thrown fault with
`GuardOutcome.fault`. Otherwise the extracted chunk is passed to the
verifier and handled per `handleVerify`. -/
def authenticateToken (verify : String → Except VerificationError Claims)
    (authHeader : Option String) : GuardOutcome :=
  match extractToken authHeader with
  | none => .fault "res.status(401).jso is not a function"
  | some t => handleVerify (verify t)

/-- Modelled from the spec: a stored bcrypt hash produced by the external
`bcryptjs` library (not part of this repository's source). Per spec
section 4.1 the stored string self-describes its salt and cost and is the
image of (plaintext, salt) under an ideal one-way function; since only
equality of digests is observable, the digest is modelled abstractly by its
preimage pair. -/
structure BcryptDigest where
  preimage : String × String
  cost : Nat
deriving DecidableEq, Repr

/-- Modelled from the spec: `bcrypt.hash(plaintext, cost)` with the fresh
random salt made an explicit argument (`auth.js:23` calls it with cost 10).
It derives the digest of (plaintext, salt) and records salt and cost in the
result. -/
def bcryptHash (plaintext : String) (cost : Nat) (salt : String) : BcryptDigest :=
  { preimage := (plaintext, salt), cost := cost }

/-- Modelled from the spec: `bcrypt.compare(candidate, stored)`
(`auth.js:50`): recompute the hash of the candidate using the salt and cost
embedded in the stored digest and compare; true exactly when equal. -/
def bcryptCompare (candidate : String) (stored : BcryptDigest) : Bool :=
  bcryptHash candidate stored.cost stored.preimage.2 == stored

/-- Row of the `users` table: id, name, email, stored password hash,
creation timestamp. -/
structure User where
  id : Nat
  name : String
  email : String
  password : BcryptDigest
  created_at : Nat
deriving DecidableEq, Repr

/-- Row of the `foods` table, as inserted by the add-food handler
(`auth.js:119-124`). -/
structure Food where
  id : Nat
  food_name : String
  serving_size : Int
  calories : Int
  protein : Int
  carbs : Int
  fat : Int
  is_custom : Bool
deriving DecidableEq, Repr

/-- Row of the `daily_food_logs` table, as inserted by the log-food handler
(`auth.js:150-155`). -/
structure LogEntry where
  id : Nat
  user_id : Nat
  food_id : Int
  food_name : String
  meal_type : String
  quantity : Int
deriving DecidableEq, Repr

/-- State of the PostgreSQL pool as the handlers see it: the three tables,
a counter supplying fresh serial ids, and `failure`, which is `some msg`
when the database is down — in that state every `pool.query` call rejects
with an error whose message is `msg`, which the handlers' catch blocks
receive. -/
structure Db where
  users : List User
  foods : List Food
  logs : List LogEntry
  nextId : Nat
  failure : Option String
deriving DecidableEq, Repr

/-- One awaited `pool.query` call: when the database is failing it throws
(an `Except.error` carrying the message), otherwise it computes the result
from the database state. -/
def dbQuery {α : Type} (db : Db) (f : Db → α) : Except String α :=
  match db.failure with
  | some m => .error m
  | none => .ok (f db)

/-- Bodies of the JSON responses the modelled handlers produce. `errObj` is
the ubiquitous single-field object carrying an error message string. -/
inductive ResBody where
  | errObj (error : String)
  | registered (id : Nat) (name : String) (email : String) (created_at : Nat)
  | foodRec (f : Food)
  | logRec (l : LogEntry)
  | products (ps : List (Nat × String × String))
deriving DecidableEq, Repr

/-- An HTTP response: status code plus JSON body. -/
structure HttpResponse where
  status : Nat
  body : ResBody
deriving DecidableEq, Repr

/-- JavaScript truthiness of a possibly-absent string field: `undefined`
and the empty string are falsy. -/
def truthyStr (v : Option String) : Bool :=
  match v with
  | none => false
  | some s => s != ""

/-- JavaScript truthiness of a possibly-absent numeric field: `undefined`
and 0 are falsy. -/
def truthyInt (v : Option Int) : Bool :=
  match v with
  | none => false
  | some n => n != 0

/-- JavaScript `x || 0` applied to a possibly-absent numeric field, as used
for the optional macro fields at `auth.js:123`: an absent field (and 0
itself) becomes 0. -/
def orZero (v : Option Int) : Int :=
  match v with
  | none => 0
  | some n => n

/-- Try-block of `POST /register` (`auth.js:17-35`): a SELECT for the
email; if a row exists, 400 "User already exists" without touching the
store; otherwise hash the password with cost 10 and INSERT the new row,
answering 201 with the row's public fields. Errors thrown by the queries
propagate out to the handler's catch. -/
def registerBody (db : Db) (name email password salt : String) (now : Nat) :
    Except String (HttpResponse × Db) :=
  match dbQuery db (fun d => d.users.filter (fun u => u.email == email)) with
  | .error m => .error m
  | .ok userExists =>
    if userExists.length > 0 then
      .ok ({ status := 400, body := .errObj "User already exists" }, db)
    else
      let hashed := bcryptHash password 10 salt
      let newUser : User :=
        { id := db.nextId, name := name, email := email, password := hashed,
          created_at := now }
      match dbQuery db (fun d =>
        { d with users := d.users ++ [newUser], nextId := d.nextId + 1 }) with
      | .error m => .error m
      | .ok db2 =>
        .ok ({ status := 201, body := .registered newUser.id name email now }, db2)

/-- `POST /register` (`auth.js:14-39`), catch block included: any error
thrown inside the try is converted to a 500 response whose body carries the
error's message verbatim (`auth.js:36-38`), leaving the store unchanged. -/
def register (db : Db) (name email password salt : String) (now : Nat) :
    HttpResponse × Db :=
  match registerBody db name email password salt now with
  | .ok r => r
  | .error m => ({ status := 500, body := .errObj m }, db)

/-- `GET /search` (`auth.js:80-109`): a falsy `query` parameter is answered
400 before the try block; otherwise the awaited external API call
(`axios.get`, modelled by its result `apiResult`) either throws — caught
and answered 500 with the message verbatim (`auth.js:106-108`) — or
returns products mapped to (id, title, image) triples, answered 200. -/
def search (apiResult : Except String (List (Nat × String × String)))
    (query : Option String) : HttpResponse :=
  if !truthyStr query then { status := 400, body := .errObj "Query must be provided" }
  else
    match apiResult with
    | .error m => { status := 500, body := .errObj m }
    | .ok ps => { status := 200, body := .products ps }

/-- `POST /add-food` (`auth.js:111-130`): required fields are tested by
truthiness (`!food_name || !serving_size || !calories` at `auth.js:114`),
so an absent field, an empty name, a 0 serving size or 0 calories all take
the 400 path. Otherwise the food row is INSERTed with the optional macros
defaulted by `|| 0`, answering 201 with the row; a thrown query error is
caught and answered 500 with the message verbatim. -/
def addFood (db : Db) (food_name : Option String)
    (serving_size calories protein carbs fat : Option Int) :
    HttpResponse × Db :=
  if !truthyStr food_name || !truthyInt serving_size || !truthyInt calories then
    ({ status := 400,
       body := .errObj "Food name, serving size, and calories are required" }, db)
  else
    match dbQuery db (fun d =>
      let f : Food :=
        { id := d.nextId, food_name := food_name.getD "",
          serving_size := serving_size.getD 0, calories := calories.getD 0,
          protein := orZero protein, carbs := orZero carbs, fat := orZero fat,
          is_custom := true }
      (f, { d with foods := d.foods ++ [f], nextId := d.nextId + 1 })) with
    | .error m => ({ status := 500, body := .errObj m }, db)
    | .ok (f, db2) => ({ status := 201, body := .foodRec f }, db2)

/-- JavaScript `s.toLowerCase()` on the ASCII strings the handler deals
with: lowercase every character. -/
def jsToLower (s : String) : String :=
  String.mk (s.data.map Char.toLower)

/-- The whitelist of meal types (`auth.js:139`). -/
def validMealTypes : List String := ["breakfast", "lunch", "dinner", "snack"]

/-- Meal-type coercion of `auth.js:140`: lowercase the request's meal type;
if the result is in the whitelist keep it, otherwise silently use
"snack". -/
def coerceMealType (meal_type : String) : String :=
  if validMealTypes.contains (jsToLower meal_type) then jsToLower meal_type
  else "snack"

/-- Try-block of `POST /log-food` (`auth.js:142-160`): SELECT the food by
id — no row is answered 404 "Food not found" — then INSERT the log row for
the authenticated user with the request's food id, the found food's name,
the coerced meal type and the request's quantity, answering 201 with the
row. -/
def logFoodBody (db : Db) (userId : Nat) (food_id : Int) (type : String)
    (quantity : Int) : Except String (HttpResponse × Db) :=
  match dbQuery db (fun d => d.foods.filter (fun f => (f.id : Int) == food_id)) with
  | .error m => .error m
  | .ok [] => .ok ({ status := 404, body := .errObj "Food not found" }, db)
  | .ok (f :: _) =>
    let newLog : LogEntry :=
      { id := db.nextId, user_id := userId, food_id := food_id,
        food_name := f.food_name, meal_type := type, quantity := quantity }
    match dbQuery db (fun d =>
      { d with logs := d.logs ++ [newLog], nextId := d.nextId + 1 }) with
    | .error m => .error m
    | .ok db2 => .ok ({ status := 201, body := .logRec newLog }, db2)

/-- `POST /log-food` (`auth.js:132-161`): required fields tested by
truthiness (`!food_id || !meal_type || !quantity` at `auth.js:135`), so a
0 food id or 0 quantity takes the 400 path; then the meal type is coerced
(`auth.js:139-140`) and the try-block runs, its thrown errors caught and
answered 500 with the message verbatim. `userId` is the authenticated
user's id from `req.user`. -/
def logFood (db : Db) (userId : Nat) (food_id : Option Int)
    (meal_type : Option String) (quantity : Option Int) : HttpResponse × Db :=
  if !truthyInt food_id || !truthyStr meal_type || !truthyInt quantity then
    ({ status := 400,
       body := .errObj "Food ID, meal type, and quantity are required" }, db)
  else
    match logFoodBody db userId (food_id.getD 0)
        (coerceMealType (meal_type.getD "")) (quantity.getD 0) with
    | .ok r => r
    | .error m => ({ status := 500, body := .errObj m }, db)

/-- Concrete food row used to evaluate the handlers on explicit inputs. -/
def sampleFood : Food :=
  { id := 1, food_name := "apple", serving_size := 1, calories := 52,
    protein := 0, carbs := 14, fat := 0, is_custom := true }

/-- Concrete user row used to evaluate the handlers on explicit inputs. -/
def sampleUser : User :=
  { id := 1, name := "Ada", email := "a@b.com",
    password := bcryptHash "pw" 10 "salt", created_at := 0 }

/-- Concrete healthy database state: one user and one food. -/
def sampleDb : Db :=
  { users := [sampleUser], foods := [sampleFood], logs := [], nextId := 2,
    failure := none }

/-- Concrete database state in which every query throws "db down". -/
def failingDb : Db :=
  { users := [sampleUser], foods := [sampleFood], logs := [], nextId := 2,
    failure := some "db down" }

/-- The log row that logging food 1 with meal type "BRUNCH" and quantity 2
as user 7 against `sampleDb` creates. -/
def sampleLog : LogEntry :=
  { id := 2, user_id := 7, food_id := 1, food_name := "apple",
    meal_type := "snack", quantity := 2 }

end FitnessPal

namespace FitnessPal

/-- The claim: a request whose authorization header yields no token is
rejected with HTTP 401 and a JSON no-credential error. What the code does
instead: the no-token branch at `authMiddleware.js:220` calls the
nonexistent response method `jso`, so a `TypeError` is thrown and no 401
JSON response is produced — the middleware terminates in a fault, for every
verifier and in particular for a request with no authorization header. -/
theorem c1_no_token_faults :
    ∀ verify : String → Except VerificationError Claims,
      authenticateToken verify none =
        GuardOutcome.fault "res.status(401).jso is not a function" := by
  intro verify
  rfl

/-- The claim states that a header without the `Bearer ` prefix is treated
as carrying no token and is never passed to verification. Counterexample at
the concrete header "Basic abc": the guard hands the chunk "abc" to the
verifier — with an always-failing verifier the request is answered 400
"Invalid token" (the invalid-credential path), and with an always-accepting
verifier it is authorized — while the genuine no-credential path (absent
header) ends in the line-220 fault. So the no-credential path is not taken
and the header content does reach verification. -/
theorem c2_counterexample :
    authenticateToken (fun _ => .error .Malformed) (some "Basic abc") =
        .rejected 400 "Invalid token" ∧
    authenticateToken (fun _ => .ok ⟨5⟩) (some "Basic abc") =
        .authorized ⟨5⟩ ∧
    authenticateToken (fun _ => .error .Malformed) none =
        .fault "res.status(401).jso is not a function" := by
  refine ⟨by decide, by decide, by decide⟩

/-- Amended claim: the guard never checks the `Bearer ` prefix. The token
is the chunk at index 1 of the header split on spaces: when that chunk
exists and is nonempty it — regardless of what the first chunk is — is
passed to verification; when it is missing or empty the request takes the
no-token path (which, by the line-220 bug, faults rather than sending the
401response). -/
theorem c2_amended (verify : String → Except VerificationError Claims)
    (h : String) :
    (∀ t, (splitSpace h)[1]? = some t → t ≠ "" →
        authenticateToken verify (some h) = handleVerify (verify t)) ∧
    (((splitSpace h)[1]? = none ∨ (splitSpace h)[1]? = some "") →
        authenticateToken verify (some h) =
          GuardOutcome.fault "res.status(401).jso is not a function") := by
  constructor
  · intro t ht hne
    simp only [authenticateToken, extractToken, ht, if_neg hne]
  · intro hcase
    rcases hcase with hnone | hempty
    · simp only [authenticateToken, extractToken, hnone]
    · simp [authenticateToken, extractToken, hempty]

/-- Witness for the amended claim at header "Token abc" and an
always-failing verifier: the index-1 chunk is "abc", it is nonempty, and
the guard's outcome is exactly the handling of the verifier applied to
"abc". -/
theorem c2_amended_witness :
    (splitSpace "Token abc")[1]? = some "abc" ∧
    "abc" ≠ "" ∧
    authenticateToken (fun _ => .error .Malformed) (some "Token abc") =
      handleVerify ((fun _ => (.error .Malformed : Except VerificationError Claims)) "abc") :=
  ⟨by decide, by decide,
    (c2_amended (fun _ => .error .Malformed) "Token abc").1 "abc"
      (by decide) (by decide)⟩

/-- The claim: token verification succeeds exactly when the signature
verifies against the server secret and the current time is before the
expiry — nothing else (the verifier consults no user store); after expiry
the result is the Expired error, and under a different secret the result is
the SignatureInvalid error. -/
theorem c3_verify_conditions (t : Token) (secret : String) (now : Nat) :
    ((jwtVerify t secret now).isOk ↔ t.sig = secret ∧ now < t.exp) ∧
    (t.sig = secret → t.exp ≤ now →
        jwtVerify t secret now = .error .Expired) ∧
    (t.sig ≠ secret → jwtVerify t secret now = .error .SignatureInvalid) := by
  refine ⟨?_, ?_, ?_⟩
  · unfold jwtVerify
    by_cases hs : t.sig = secret
    · by_cases he : t.exp ≤ now
      · simp [hs, he, Except.isOk, Except.toBool]
      · simp [hs, he, Except.isOk, Except.toBool]
        all_goals omega
    · simp [hs, Except.isOk, Except.toBool]
  · intro hs he
    simp [jwtVerify, hs, he]
  · intro hs
    simp [jwtVerify, hs]

/-- Witness for the verifier conditions: a token signed with secret "a" but
verified with secret "b" at time 0 is rejected SignatureInvalid, and the
same token verified with "a" at time 4000 (past the 3600-second expiry) is
rejected Expired. -/
theorem c3_verify_conditions_witness :
    ((jwtSign ⟨1⟩ "a" 0).sig ≠ "b" ∧
      jwtVerify (jwtSign ⟨1⟩ "a" 0) "b" 0 = .error .SignatureInvalid) ∧
    ((jwtSign ⟨1⟩ "a" 0).sig = "a" ∧ (jwtSign ⟨1⟩ "a" 0).exp ≤ 4000 ∧
      jwtVerify (jwtSign ⟨1⟩ "a" 0) "a" 4000 = .error .Expired) :=
  ⟨⟨by decide, (c3_verify_conditions (jwtSign ⟨1⟩ "a" 0) "b" 0).2.2 (by decide)⟩,
   ⟨by decide, by decide,
    (c3_verify_conditions (jwtSign ⟨1⟩ "a" 0) "a" 4000).2.1 (by decide) (by decide)⟩⟩

/-- The claim: a token issued for userId U carries expiry = issuance time +
1 hour (3600 seconds), and verifying it immediately after issuance with the
same secret succeeds and returns claims with that userId. -/
theorem c4_issue_verify_roundtrip (U : Nat) (secret : String) (now : Nat) :
    (jwtSign ⟨U⟩ secret now).exp = now + 3600 ∧
    jwtVerify (jwtSign ⟨U⟩ secret now) secret now = .ok ⟨U⟩ := by
  constructor
  · rfl
  · simp [jwtVerify, jwtSign]

/-- The claim: when a token was extracted from the header, a failing
verification yields the 400 "Invalid token" rejection, and a successful
verification yields authorization carrying exactly the returned claims
(attached to the request context, control passed to the next stage). -/
theorem c5_guard_verify_paths (verify : String → Except VerificationError Claims)
    (h : Option String) (t : String) (ht : extractToken h = some t) :
    (∀ e, verify t = .error e →
        authenticateToken verify h = .rejected 400 "Invalid token") ∧
    (∀ c, verify t = .ok c → authenticateToken verify h = .authorized c) := by
  constructor
  · intro e he
    simp [authenticateToken, ht, handleVerify, he]
  · intro c hc
    simp [authenticateToken, ht, handleVerify, hc]

/-- Witness for the guard's two verification paths at the header
"Bearer tok": with an always-accepting verifier the request is authorized
with the returned claims, and the hypotheses are discharged concretely. -/
theorem c5_guard_verify_paths_witness :
    extractToken (some "Bearer tok") = some "tok" ∧
    (fun _ => (.ok ⟨3⟩ : Except VerificationError Claims)) "tok" = .ok ⟨3⟩ ∧
    authenticateToken (fun _ => .ok ⟨3⟩) (some "Bearer tok") = .authorized ⟨3⟩ :=
  ⟨by decide, rfl,
    (c5_guard_verify_paths (fun _ => .ok ⟨3⟩) (some "Bearer tok") "tok"
      (by decide)).2 ⟨3⟩ rfl⟩

/-- The claim: registering an email that already matches an existing user
row answers 400 "User already exists" and leaves the user store unchanged
(no second record created). The hypothesis `hup` says the database itself
is healthy (otherwise the SELECT throws and the 500 path runs instead). -/
theorem c6_register_duplicate (db : Db) (name email password salt : String)
    (now : Nat) (hup : db.failure = none)
    (hex : ∃ u ∈ db.users, u.email = email) :
    register db name email password salt now =
      ({ status := 400, body := .errObj "User already exists" }, db) := by
  obtain ⟨u, hu, he⟩ := hex
  have hmem : u ∈ db.users.filter (fun v => v.email == email) := by
    simp [List.mem_filter, hu, he]
  have hfilter : (db.users.filter (fun v => v.email == email)).length > 0 :=
    List.length_pos.mpr (List.ne_nil_of_mem hmem)
  simp [register, registerBody, dbQuery, hup, hfilter]

/-- Witness for the duplicate-registration rejection: `sampleDb` already
holds a user with email "a@b.com", and a second registration with that
email is answered 400 with the store unchanged. -/
theorem c6_register_duplicate_witness :
    sampleDb.failure = none ∧
    (∃ u ∈ sampleDb.users, u.email = "a@b.com") ∧
    register sampleDb "Bob" "a@b.com" "pw2" "s2" 9 =
      ({ status := 400, body := .errObj "User already exists" }, sampleDb) :=
  ⟨rfl, ⟨sampleUser, by decide, by decide⟩,
    c6_register_duplicate sampleDb "Bob" "a@b.com" "pw2" "s2" 9 rfl
      ⟨sampleUser, by decide, by decide⟩⟩

/-- Coerced meal types always land in the whitelist. -/
theorem coerceMealType_mem (mt : String) : coerceMealType mt ∈ validMealTypes := by
  unfold coerceMealType
  by_cases h : validMealTypes.contains (jsToLower mt)
  · rw [if_pos h]
    exact List.mem_of_elem_eq_true h
  · rw [if_neg h]
    decide

/-- Meal types outside the whitelist (after lowercasing) coerce to
"snack". -/
theorem coerceMealType_snack (mt : String) (h : jsToLower mt ∉ validMealTypes) :
    coerceMealType mt = "snack" := by
  unfold coerceMealType
  rw [if_neg]
  intro hc
  exact h (List.mem_of_elem_eq_true hc)

/-- Every log row added to the store by the log-food handler carries the
coerced meal type of the request. -/
theorem logFood_new_entry (db : Db) (uid : Nat) (fid q : Option Int)
    (mt : Option String) (l : LogEntry)
    (hl : l ∈ ((logFood db uid fid mt q).2).logs) (hnew : l ∉ db.logs) :
    l.meal_type = coerceMealType (mt.getD "") ∧ l.quantity = q.getD 0 := by
  unfold logFood at hl
  split at hl
  · exact absurd hl hnew
  · unfold logFoodBody at hl
    cases hfail : db.failure with
    | some m => simp [dbQuery, hfail] at hl; exact absurd hl hnew
    | none =>
      simp only [dbQuery, hfail] at hl
      cases hfoods : db.foods.filter (fun f => (f.id : Int) == fid.getD 0) with
      | nil => simp [hfoods] at hl; exact absurd hl hnew
      | cons f fs =>
        simp only [hfoods, List.mem_append] at hl
        rcases hl with hl | hl
        · exact absurd hl hnew
        · simp only [List.mem_singleton] at hl
          subst hl
          exact ⟨rfl, rfl⟩

/-- The claim: a log-food request whose meal type is not one of breakfast,
lunch, dinner, snack (case-insensitively, i.e. after lowercasing) stores a
row whose meal type is "snack"; and every row the handler creates has a
meal type in the whitelist. -/
theorem c7_meal_type_coercion (db : Db) (uid : Nat) (fid q : Option Int)
    (mt : String) (l : LogEntry)
    (hl : l ∈ ((logFood db uid fid (some mt) q).2).logs) (hnew : l ∉ db.logs) :
    l.meal_type ∈ validMealTypes ∧
      (jsToLower mt ∉ validMealTypes → l.meal_type = "snack") := by
  have h := (logFood_new_entry db uid fid q (some mt) l hl hnew).1
  simp only [Option.getD_some] at h
  constructor
  · rw [h]; exact coerceMealType_mem mt
  · intro hout
    rw [h]
    exact coerceMealType_snack mt hout

/-- Witness for the meal-type coercion: logging food 1 against `sampleDb`
with meal type "BRUNCH" creates `sampleLog`, whose meal type is "snack" and
in the whitelist; "brunch" is outside the whitelist. -/
theorem c7_meal_type_coercion_witness :
    sampleLog ∈ ((logFood sampleDb 7 (some 1) (some "BRUNCH") (some 2)).2).logs ∧
    sampleLog ∉ sampleDb.logs ∧
    jsToLower "BRUNCH" ∉ validMealTypes ∧
    sampleLog.meal_type ∈ validMealTypes ∧ sampleLog.meal_type = "snack" :=
  ⟨by decide, by decide, by decide,
    (c7_meal_type_coercion sampleDb 7 (some 1) (some 2) "BRUNCH" sampleLog
      (by decide) (by decide)).1,
    (c7_meal_type_coercion sampleDb 7 (some 1) (some 2) "BRUNCH" sampleLog
      (by decide) (by decide)).2 (by decide)⟩

/-- The claim: for all plaintexts, comparing a password against its own
hash succeeds; comparing against the hash of a different plaintext fails;
and the only hash the register handler ever stores is produced with cost
factor 10 (the fixed work factor of `auth.js:23`). -/
theorem c8_hash_verify (p p2 salt : String) (db : Db) (n e : String) (now : Nat) :
    bcryptCompare p (bcryptHash p 10 salt) = true ∧
    (p ≠ p2 → bcryptCompare p (bcryptHash p2 10 salt) = false) ∧
    (∀ u ∈ ((register db n e p salt now).2).users,
        u ∈ db.users ∨ u.password = bcryptHash p 10 salt) := by
  refine ⟨?_, ?_, ?_⟩
  · simp [bcryptCompare, bcryptHash]
  · intro hne
    simp [bcryptCompare, bcryptHash, BcryptDigest.mk.injEq, Prod.mk.injEq, hne]
  · intro u hu
    unfold register registerBody at hu
    cases hfail : db.failure with
    | some m => simp [dbQuery, hfail] at hu; exact Or.inl hu
    | none =>
      simp only [dbQuery, hfail] at hu
      by_cases hdup :
          (db.users.filter (fun v => v.email == e)).length > 0
      · simp [hdup] at hu; exact Or.inl hu
      · simp only [hdup, if_neg, if_false] at hu
        simp only [List.mem_append] at hu
        rcases hu with hu | hu
        · exact Or.inl hu
        · simp only [List.mem_singleton] at hu
          subst hu
          exact Or.inr rfl

/-- Witness for the hasher properties: "alpha" and "beta" are distinct
plaintexts, and the cross comparison fails. -/
theorem c8_hash_verify_witness :
    "alpha" ≠ "beta" ∧
    bcryptCompare "alpha" (bcryptHash "beta" 10 "s") = false :=
  ⟨by decide,
    (c8_hash_verify "alpha" "beta" "s" sampleDb "n" "e" 0).2.1 (by decide)⟩

/-- The claim: a database failure inside the register try-block and an
upstream failure inside the search try-block are both caught at the handler
boundary and answered 500 with the internal error message passed through
verbatim in the JSON body, the store untouched and nothing retried. -/
theorem c9_errors_become_500 (db : Db) (m : String) (hf : db.failure = some m)
    (name email password salt : String) (now : Nat) (q : String) (hq : q ≠ "") :
    register db name email password salt now =
      ({ status := 500, body := .errObj m }, db) ∧
    search (.error m) (some q) = { status := 500, body := .errObj m } := by
  constructor
  · simp [register, registerBody, dbQuery, hf]
  · simp [search, truthyStr, hq]

/-- Witness for the 500 conversion: against `failingDb` (every query throws
"db down") registration answers 500 with body "db down" and the failing
search with query "apple" does the same. -/
theorem c9_errors_become_500_witness :
    failingDb.failure = some "db down" ∧
    "apple" ≠ "" ∧
    (register failingDb "Ada" "a@b.com" "pw" "s" 3 =
        ({ status := 500, body := .errObj "db down" }, failingDb) ∧
      search (.error "db down") (some "apple") =
        { status := 500, body := .errObj "db down" }) :=
  ⟨rfl, by decide,
    c9_errors_become_500 failingDb "db down" rfl "Ada" "a@b.com" "pw" "s" 3
      "apple" (by decide)⟩

/-- Every food row added to the store by the add-food handler has the
request's calories value, which the truthiness check forces nonzero. -/
theorem addFood_new_entry (db : Db) (fn : Option String)
    (ss cal pr cb ft : Option Int) (f : Food)
    (hf : f ∈ ((addFood db fn ss cal pr cb ft).2).foods) (hnew : f ∉ db.foods) :
    f.calories ≠ 0 := by
  unfold addFood at hf
  split at hf
  · exact absurd hf hnew
  · rename_i hcond
    cases hfail : db.failure with
    | some m => simp [dbQuery, hfail] at hf; exact absurd hf hnew
    | none =>
      simp only [dbQuery, hfail, List.mem_append] at hf
      rcases hf with hf | hf
      · exact absurd hf hnew
      · simp only [List.mem_singleton] at hf
        subst hf
        have hcal : truthyInt cal = true := by
          cases hc : truthyInt cal
          · rw [hc] at hcond; simp at hcond
          · rfl
        cases cal with
        | none => simp [truthyInt] at hcal
        | some n =>
          simp only [truthyInt, bne_iff_ne] at hcal
          simpa [Option.getD_some] using hcal

/-- The claim: required numeric fields are tested by JavaScript falsiness,
so calories 0 or serving size 0 in add-food and quantity 0 in log-food are
each rejected 400 exactly as a missing field would be, and consequently no
created food row has calories 0 and no created log row has quantity 0. -/
theorem c10_zero_numeric_fields (db : Db) (fn : Option String)
    (ss cal pr cb ft : Option Int) (uid : Nat) (fid q : Option Int)
    (mt : Option String) :
    (addFood db fn ss (some 0) pr cb ft =
      ({ status := 400,
         body := .errObj "Food name, serving size, and calories are required" }, db)) ∧
    (addFood db fn (some 0) cal pr cb ft =
      ({ status := 400,
         body := .errObj "Food name, serving size, and calories are required" }, db)) ∧
    (logFood db uid fid mt (some 0) =
      ({ status := 400,
         body := .errObj "Food ID, meal type, and quantity are required" }, db)) ∧
    (∀ f ∈ ((addFood db fn ss cal pr cb ft).2).foods,
        f ∈ db.foods ∨ f.calories ≠ 0) ∧
    (∀ l ∈ ((logFood db uid fid mt q).2).logs,
        l ∈ db.logs ∨ l.quantity ≠ 0) := by
  refine ⟨?_, ?_, ?_, ?_, ?_⟩
  · simp [addFood, truthyInt]
  · simp [addFood, truthyInt]
  · simp [logFood, truthyInt]
  · intro f hf
    by_cases hmem : f ∈ db.foods
    · exact Or.inl hmem
    · exact Or.inr (addFood_new_entry db fn ss cal pr cb ft f hf hmem)
  · intro l hl
    by_cases hmem : l ∈ db.logs
    · exact Or.inl hmem
    · refine Or.inr ?_
      have h := (logFood_new_entry db uid fid q mt l hl hmem).2
      unfold logFood at hl
      split at hl
      · exact absurd hl hmem
      · rename_i hcond
        have hq : truthyInt q = true := by
          cases hc : truthyInt q
          · rw [hc] at hcond; simp at hcond
          · rfl
        cases q with
        | none => simp [truthyInt] at hq
        | some n =>
          simp only [truthyInt, bne_iff_ne] at hq
          rw [h]
          simpa [Option.getD_some] using hq

/-- Witness for the falsiness rejections: against `sampleDb`, add-food with
calories 0 is answered 400, and the log row created by a quantity-2 request
has nonzero quantity. -/
theorem c10_zero_numeric_fields_witness :
    (addFood sampleDb (some "rice") (some 100) (some 0) none none none =
      ({ status := 400,
         body := .errObj "Food name, serving size, and calories are required" },
        sampleDb)) ∧
    (sampleLog ∈ ((logFood sampleDb 7 (some 1) (some "BRUNCH") (some 2)).2).logs ∧
      (sampleLog ∈ sampleDb.logs ∨ sampleLog.quantity ≠ 0)) :=
  ⟨(c10_zero_numeric_fields sampleDb (some "rice") (some 100) (some 0) none none
      none 7 (some 1) (some 2) (some "BRUNCH")).1,
    ⟨by decide,
      (c10_zero_numeric_fields sampleDb (some "rice") (some 100) (some 0) none
        none none 7 (some 1) (some 2) (some "BRUNCH")).2.2.2.2 sampleLog
        (by decide)⟩⟩

end FitnessPal
